import Mathlib

/-
  A shallow embedding of src/waitFor.ts from testing-library/web-testing-library.

  The core is the function waitForImpl: it starts a one-shot deadline timer and a
  repeating interval timer, runs the user callback once synchronously, and then
  reacts to events (interval ticks, the deadline firing, settlement of a thenable
  returned by the callback, and the abort event of an optional AbortSignal).
  We model the mutable closure state of the Promise executor as a record
  PollerState, each callback invocation outcome as a CheckResult indexed by the
  invocation count, and the event loop as a fold of a step function over an
  explicit list of events.  Real-time durations (the timeout and interval values)
  only influence when the host fires the timers, which the event list abstracts;
  whether a timer may still fire is tracked by the two active flags, which
  clearTimeout and clearInterval reset.  The optional clock-driven loop in the
  source only pumps virtual timers and performs no state transition of its own,
  so it needs no separate model.
-/

namespace WaitFor

/-- A JavaScript Error object as far as waitFor.ts inspects it: its message and
its optional stack string. -/
structure ErrorRec where
  message : String
  stack : Option String
  deriving Repr, DecidableEq

/-- JavaScript runtime values, as far as waitFor.ts inspects them: the code only
ever asks for truthiness, for typeof, for a then property that is a function,
and for message and stack of errors.  Plain objects and functions carry one flag
recording whether their then property has typeof function. -/
inductive JSVal where
  | undef
  | null
  | bool (b : Bool)
  | num (n : Int)
  | str (s : String)
  | err (e : ErrorRec)
  | obj (thenIsFunc : Bool)
  | func (thenIsFunc : Bool)
  deriving Repr, DecidableEq

/-- JavaScript truthiness of a value, as used by the conditions
if (error) and if (lastError) in the source. -/
def truthy : JSVal → Bool
  | .undef => false
  | .null => false
  | .bool b => b
  | .num n => n != 0
  | .str s => s != ""
  | .err _ => true
  | .obj _ => true
  | .func _ => true

/-- The JavaScript typeof operator on our value model. -/
def typeof : JSVal → String
  | .undef => "undefined"
  | .null => "object"
  | .bool _ => "boolean"
  | .num _ => "number"
  | .str _ => "string"
  | .err _ => "object"
  | .obj _ => "object"
  | .func _ => "function"

/-- Whether the value has a then property of typeof function. -/
def thenIsFunction : JSVal → Bool
  | .obj t => t
  | .func t => t
  | _ => false

/-- The thenable test of checkCallback in the source:
result !== null && typeof result === 'object' && typeof result.then === 'function'. -/
def isThenable (r : JSVal) : Bool :=
  r != JSVal.null && typeof r == "object" && thenIsFunction r

/-- Replace the leftmost occurrence of pat in a character list by repl,
returning the list unchanged when pat does not occur. -/
def listReplaceFirst : List Char → List Char → List Char → List Char
  | [], pat, repl => if pat = [] then repl else []
  | c :: rest, pat, repl =>
    if List.take pat.length (c :: rest) = pat then
      repl ++ List.drop pat.length (c :: rest)
    else
      c :: listReplaceFirst rest pat repl

/-- JavaScript String.prototype.replace with a plain string pattern: replace
the first occurrence of pat in s by repl, returning s unchanged when pat does
not occur. -/
def jsReplaceFirst (s pat repl : String) : String :=
  ⟨listReplaceFirst s.data pat.data repl.data⟩

/-- copyStackTrace from the source: when the source error has a stack, the
target stack becomes the source stack with the source message replaced by the
target message; otherwise the target stack is left as it was.  We return the
resulting target stack. -/
def copyStackTrace (targetMsg : String) (targetStack : Option String)
    (sourceMsg : String) (sourceStack : Option String) : Option String :=
  match sourceStack with
  | some st => some (jsReplaceFirst st sourceMsg targetMsg)
  | none => targetStack

/-- The promiseStatus string variable of the source. -/
inductive PromiseStatus where
  | idle
  | pending
  | resolved
  | rejected
  deriving Repr, DecidableEq

/-- A settlement of the outward Promise: resolve with a value or reject with an
error value. -/
inductive Settlement where
  | res (v : JSVal)
  | rej (e : JSVal)
  deriving Repr, DecidableEq

/-- The outcome of one invocation of the user callback: it either returns a
value (which may or may not be a thenable) or throws synchronously. -/
inductive CheckResult where
  | ret (v : JSVal)
  | thr (e : JSVal)

/-- The per-invocation configuration of waitForImpl, with the defaults of the
source.  freshStack is the stack string the host runtime attaches to an Error
constructed inside the poller (none on a runtime that provides no stacks);
stackTraceError is the error captured at the call site and passed down by
waitFor. -/
structure Config where
  timeout : Nat := 1000
  interval : Nat := 50
  onTimeout : JSVal → JSVal := fun error => error
  showOriginalStackTrace : Bool := false
  hasSignal : Bool := false
  preAborted : Bool := false
  abortReason : String := "undefined"
  stackTraceError : ErrorRec := ⟨"STACK_TRACE_MESSAGE", none⟩
  freshStack : Option String := none

/-- The mutable state of the Promise executor closure in waitForImpl, plus the
settle-once state of the outward Promise (settled), the number of callback
invocations so far (calls), the invocation indices whose returned thenables
have handlers attached but have not settled yet (pendingDeferreds), the aborted
flag of the signal, and whether the abort listener is attached. -/
structure PollerState where
  lastError : JSVal := .undef
  finished : Bool := false
  promiseStatus : PromiseStatus := .idle
  timeoutTimerActive : Bool := true
  intervalActive : Bool := true
  settled : Option Settlement := none
  calls : Nat := 0
  pendingDeferreds : List Nat := []
  aborted : Bool := false
  listenerAttached : Bool := false
  deriving Repr

/-- resolve of the outward Promise: the first settlement wins, later calls are
no-ops. -/
def resolveP (v : JSVal) (s : PollerState) : PollerState :=
  match s.settled with
  | some _ => s
  | none => { s with settled := some (.res v) }

/-- reject of the outward Promise: the first settlement wins, later calls are
no-ops. -/
def rejectP (e : JSVal) (s : PollerState) : PollerState :=
  match s.settled with
  | some _ => s
  | none => { s with settled := some (.rej e) }

/-- onDone from the source: set finished, clear both timers, then reject when
the error argument is truthy and resolve with the result otherwise. -/
def onDone (error result : JSVal) (s : PollerState) : PollerState :=
  let s1 := { s with finished := true, timeoutTimerActive := false,
                     intervalActive := false }
  if truthy error then rejectP error s1 else resolveP result s1

/-- checkCallback from the source, parametrised by the behaviour cb of the user
callback (the outcome of its k-th invocation, counted from 0).  If a prior
thenable is still pending, return without doing anything; otherwise invoke the
callback: a thenable return attaches handlers and moves to pending, any other
return settles successfully via onDone, and a synchronous throw is recorded in
lastError. -/
def checkCallback (cb : Nat → CheckResult) (s : PollerState) : PollerState :=
  if s.promiseStatus = .pending then s
  else
    let k := s.calls
    let s1 := { s with calls := k + 1 }
    match cb k with
    | .ret r =>
      if isThenable r then
        { s1 with promiseStatus := .pending,
                  pendingDeferreds := k :: s1.pendingDeferreds }
      else
        onDone .null r s1
    | .thr e => { s1 with lastError := e }

/-- The terminal error built by handleTimeout: reuse lastError when truthy,
otherwise a fresh Error with message "Timed out in waitFor." whose stack is
relocated by copyStackTrace unless showOriginalStackTrace is set. -/
def timeoutError (cfg : Config) (lastError : JSVal) : JSVal :=
  if truthy lastError then lastError
  else
    JSVal.err ⟨"Timed out in waitFor.",
      if cfg.showOriginalStackTrace then cfg.freshStack
      else copyStackTrace "Timed out in waitFor." cfg.freshStack
             cfg.stackTraceError.message cfg.stackTraceError.stack⟩

/-- handleTimeout from the source: build the terminal error, pass it through
onTimeout, and settle via onDone. -/
def handleTimeout (cfg : Config) (s : PollerState) : PollerState :=
  onDone (cfg.onTimeout (timeoutError cfg s.lastError)) .null s

/-- The Error built for an abort: new Error with the template string
Aborted followed by the signal reason. -/
def abortError (cfg : Config) : JSVal :=
  .err ⟨"Aborted: " ++ cfg.abortReason, cfg.freshStack⟩

/-- The synchronous body of the Promise executor: both timers start active,
then, when a signal is supplied and already aborted, onDone runs with the abort
error; the abort listener is attached whenever a signal is supplied; finally
checkCallback runs once, unconditionally. -/
def initState (cfg : Config) (cb : Nat → CheckResult) : PollerState :=
  let s : PollerState := { aborted := cfg.hasSignal && cfg.preAborted }
  let s1 := if cfg.hasSignal && cfg.preAborted
            then onDone (abortError cfg) .null s else s
  let s2 := { s1 with listenerAttached := cfg.hasSignal }
  checkCallback cb s2

/-- The external events the poller reacts to after its synchronous start: a
firing of the repeating interval timer, a firing of the one-shot deadline
timer, the settlement (fulfilment or rejection) of the thenable returned by
invocation k, and the abort event of the signal. -/
inductive Event where
  | tick
  | deadline
  | deferredResolve (k : Nat) (v : JSVal)
  | deferredReject (k : Nat) (e : JSVal)
  | abortSignal

/-- Whether an event is the settlement of a thenable returned by the user
callback. -/
def isDeferredEvent : Event → Bool
  | .deferredResolve _ _ => true
  | .deferredReject _ _ => true
  | _ => false

/-- One event-loop step.  A tick runs checkCallback only while the interval
timer has not been cleared; the deadline runs handleTimeout only while the
deadline timer has not been cleared; the handlers attached to the thenable of
invocation k run only if that thenable has not settled yet, marking the status
resolved and settling via onDone on fulfilment, and recording lastError and the
status rejected on rejection; the abort listener body runs onDone with the
abort error, and an AbortSignal fires its abort event at most once. -/
def step (cfg : Config) (cb : Nat → CheckResult) (s : PollerState) :
    Event → PollerState
  | .tick => if s.intervalActive then checkCallback cb s else s
  | .deadline => if s.timeoutTimerActive then handleTimeout cfg s else s
  | .deferredResolve k v =>
      if k ∈ s.pendingDeferreds then
        onDone .null v { s with pendingDeferreds := s.pendingDeferreds.erase k,
                                promiseStatus := .resolved }
      else s
  | .deferredReject k e =>
      if k ∈ s.pendingDeferreds then
        { s with pendingDeferreds := s.pendingDeferreds.erase k,
                 promiseStatus := .rejected, lastError := e }
      else s
  | .abortSignal =>
      if cfg.hasSignal && !s.aborted then
        onDone (abortError cfg) .null { s with aborted := true }
      else s

/-- Run the poller: the synchronous start followed by a list of events. -/
def run (cfg : Config) (cb : Nat → CheckResult) (events : List Event) :
    PollerState :=
  events.foldl (step cfg cb) (initState cfg cb)

/-- waitForImpl from the source: the typeof guard on the callback argument
throws a TypeError synchronously, before the Promise executor (and hence before
any timer) is created; otherwise the poller runs.  The callback argument is a
JSVal inspected only through typeof; cb gives the behaviour of its invocations
when it is callable. -/
def waitForImpl (callbackArg : JSVal) (cb : Nat → CheckResult) (cfg : Config)
    (events : List Event) : Except ErrorRec PollerState :=
  if typeof callbackArg = "function" then .ok (run cfg cb events)
  else .error ⟨"Received `callback` arg must be a function", cfg.freshStack⟩

/-- waitFor from the source: capture a stack-trace error at the call site, with
message STACK_TRACE_MESSAGE and whatever stack the runtime provides, and run
waitForImpl with it. -/
def waitFor (callbackArg : JSVal) (cb : Nat → CheckResult)
    (capturedStack : Option String) (cfg : Config) (events : List Event) :
    Except ErrorRec PollerState :=
  waitForImpl callbackArg cb
    { cfg with stackTraceError := ⟨"STACK_TRACE_MESSAGE", capturedStack⟩ } events



/-! ### Helper lemmas shared by the claim theorems -/

/-- onDone always marks the run finished and clears both timers, whatever the
settle-once outcome of resolve or reject is; it never touches the listener,
the call count or the promiseStatus variable. -/
theorem onDone_fields (error result : JSVal) (s : PollerState) :
    (onDone error result s).finished = true ∧
    (onDone error result s).timeoutTimerActive = false ∧
    (onDone error result s).intervalActive = false ∧
    (onDone error result s).listenerAttached = s.listenerAttached ∧
    (onDone error result s).calls = s.calls ∧
    (onDone error result s).promiseStatus = s.promiseStatus := by
  simp only [onDone, rejectP, resolveP]
  split <;> split <;> simp

/-- The outward Promise settles once: onDone never overwrites an existing
settlement. -/
theorem settled_onDone_mono (error result : JSVal) (s : PollerState)
    (o : Settlement) (h : s.settled = some o) :
    (onDone error result s).settled = some o := by
  simp only [onDone, rejectP, resolveP]
  split <;> simp [h]

/-- checkCallback never overwrites an existing settlement. -/
theorem settled_checkCallback_mono (cb : Nat → CheckResult) (s : PollerState)
    (o : Settlement) (h : s.settled = some o) :
    (checkCallback cb s).settled = some o := by
  simp only [checkCallback]
  split
  · exact h
  · split
    · split
      · simpa using h
      · exact settled_onDone_mono _ _ _ _ (by simpa using h)
    · simpa using h

/-- No event-loop step overwrites an existing settlement: the first settlement
wins and every later tick, timer firing, thenable handler or abort listener is
a no-op with respect to the outward result. -/
theorem settled_step_mono (cfg : Config) (cb : Nat → CheckResult)
    (s : PollerState) (e : Event) (o : Settlement) (h : s.settled = some o) :
    (step cfg cb s e).settled = some o := by
  cases e with
  | tick =>
      simp only [step]
      split
      · exact settled_checkCallback_mono _ _ _ h
      · exact h
  | deadline =>
      simp only [step, handleTimeout]
      split
      · exact settled_onDone_mono _ _ _ _ h
      · exact h
  | deferredResolve k v =>
      simp only [step]
      split
      · exact settled_onDone_mono _ _ _ _ (by simpa using h)
      · exact h
  | deferredReject k e =>
      simp only [step]
      split
      · simpa using h
      · exact h
  | abortSignal =>
      simp only [step]
      split
      · exact settled_onDone_mono _ _ _ _ (by simpa using h)
      · exact h

/-- No event-loop step attaches or detaches the abort listener. -/
theorem listener_step_const (cfg : Config) (cb : Nat → CheckResult)
    (s : PollerState) (e : Event) :
    (step cfg cb s e).listenerAttached = s.listenerAttached := by
  cases e with
  | tick =>
      simp only [step, checkCallback]
      split
      · split
        · rfl
        · split
          · split
            · rfl
            · exact (onDone_fields _ _ _).2.2.2.1
          · rfl
      · rfl
  | deadline =>
      simp only [step, handleTimeout]
      split
      · exact (onDone_fields _ _ _).2.2.2.1
      · rfl
  | deferredResolve k v =>
      simp only [step]
      split
      · exact (onDone_fields _ _ _).2.2.2.1
      · rfl
  | deferredReject k e =>
      simp only [step]
      split <;> rfl
  | abortSignal =>
      simp only [step]
      split
      · exact (onDone_fields _ _ _).2.2.2.1
      · rfl

/-- While a thenable returned by the user callback is still pending, any event
that is not the settlement of a thenable leaves the call count unchanged (the
guard at the top of checkCallback skips the tick) and keeps the status pending.
-/
theorem pending_step (cfg : Config) (cb : Nat → CheckResult) (s : PollerState)
    (e : Event) (hp : s.promiseStatus = .pending)
    (hnd : isDeferredEvent e = false) :
    (step cfg cb s e).calls = s.calls ∧
    (step cfg cb s e).promiseStatus = .pending := by
  cases e with
  | tick =>
      simp only [step, checkCallback]
      split
      · simp [hp]
      · exact ⟨rfl, hp⟩
  | deadline =>
      simp only [step, handleTimeout]
      split
      · exact ⟨(onDone_fields _ _ _).2.2.2.2.1,
          ((onDone_fields _ _ _).2.2.2.2.2).trans hp⟩
      · exact ⟨rfl, hp⟩
  | deferredResolve k v => simp [isDeferredEvent] at hnd
  | deferredReject k e => simp [isDeferredEvent] at hnd
  | abortSignal =>
      simp only [step]
      split
      · exact ⟨(onDone_fields _ _ _).2.2.2.2.1,
          ((onDone_fields _ _ _).2.2.2.2.2).trans hp⟩
      · exact ⟨rfl, hp⟩

/-! ### Claim theorems -/

/-- Claim C5: for every argument that is not a function, poll fails immediately
and synchronously (as a thrown error, not through the returned Promise) with
the message about the callback argument, and no poller state (hence no timer)
is created before this failure: waitForImpl returns the error branch, never an
ok state. -/
theorem waitForImpl_C5_nonfunction_throws (v : JSVal) (cb : Nat → CheckResult)
    (cfg : Config) (events : List Event) (h : typeof v ≠ "function") :
    waitForImpl v cb cfg events =
      .error ⟨"Received `callback` arg must be a function", cfg.freshStack⟩ ∧
    ∀ s : PollerState, waitForImpl v cb cfg events ≠ .ok s := by
  constructor
  · simp [waitForImpl, h]
  · intro s
    simp [waitForImpl, h]

/-- Witness for C5 at the concrete invocation poll(null, \x7b\x7d). -/
theorem waitForImpl_C5_witness :
    waitForImpl JSVal.null (fun _ => CheckResult.ret .undef) {} [] =
      .error ⟨"Received `callback` arg must be a function", none⟩ :=
  (waitForImpl_C5_nonfunction_throws JSVal.null (fun _ => CheckResult.ret .undef)
    {} [] (by decide)).1

/-- Claim C6: the first callback invocation happens synchronously during the
poll invocation, before any event is processed (the synchronous executor body
already counts one invocation), and when the callback succeeds on that first
synchronous call with a non-thenable value and no pre-triggered signal is
supplied, the poller is already settled successfully with that value before
any timer tick. -/
theorem waitForImpl_C6_sync_first_check (cfg : Config) (cb : Nat → CheckResult)
    (v : JSVal) (hns : cfg.hasSignal = false ∨ cfg.preAborted = false)
    (hret : cb 0 = .ret v) (hnt : isThenable v = false) :
    (initState cfg cb).calls = 1 ∧
    (initState cfg cb).settled = some (.res v) ∧
    run cfg cb [] = initState cfg cb := by
  have hfa : (cfg.hasSignal && cfg.preAborted) = false := by
    rcases hns with h | h <;> simp [h]
  refine ⟨?_, ?_, rfl⟩ <;>
    simp [initState, hfa, checkCallback, hret, hnt, onDone, truthy, resolveP]

/-- Witness for C6: poll(() => \x7b\x7d, \x7btimeout: 1000\x7d) resolves with
undefined immediately, after exactly one synchronous callback invocation. -/
theorem waitForImpl_C6_witness :
    (initState { timeout := 1000 } (fun _ => CheckResult.ret .undef)).calls = 1 ∧
    (initState { timeout := 1000 } (fun _ => CheckResult.ret .undef)).settled =
      some (.res JSVal.undef) :=
  ⟨(waitForImpl_C6_sync_first_check { timeout := 1000 } _ JSVal.undef
      (Or.inl rfl) rfl (by decide)).1,
   (waitForImpl_C6_sync_first_check { timeout := 1000 } _ JSVal.undef
      (Or.inl rfl) rfl (by decide)).2.1⟩

/-- Claim C9: when the deadline fires and the configured onTimeout returns a
falsy value on the terminal error, onDone receives a falsy error argument and
dispatches on its truthiness, so the poller resolves successfully with null
instead of rejecting. -/
theorem waitForImpl_C9_falsy_onTimeout_resolves_null (cfg : Config)
    (cb : Nat → CheckResult) (s : PollerState)
    (ht : s.timeoutTimerActive = true) (hs : s.settled = none)
    (hf : truthy (cfg.onTimeout (timeoutError cfg s.lastError)) = false) :
    (step cfg cb s .deadline).settled = some (.res .null) := by
  simp [step, ht, handleTimeout, onDone, hf, resolveP, hs]

/-- Witness for C9: an onTimeout that returns undefined makes the timeout path
resolve with null. -/
theorem waitForImpl_C9_witness :
    (step { onTimeout := fun _ => JSVal.undef }
        (fun _ => CheckResult.ret .undef) {} .deadline).settled =
      some (.res JSVal.null) :=
  waitForImpl_C9_falsy_onTimeout_resolves_null
    { onTimeout := fun _ => JSVal.undef } _ {} rfl rfl rfl

/-- Claim C10: a callback return value is treated as deferred exactly when it
is non-null, of typeof object, and has a then property of typeof function; a
thenable moves the poller to the pending status with handlers attached, and
every other return value (null, undefined, numbers, strings, booleans,
functions even with a then method, objects without a callable then) settles
the poller successfully and immediately with that value. -/
theorem checkCallback_C10_thenable_dispatch (cb : Nat → CheckResult)
    (s : PollerState) (r : JSVal) (hnp : s.promiseStatus ≠ .pending)
    (hret : cb s.calls = .ret r) :
    (isThenable r = true →
       checkCallback cb s =
         { s with calls := s.calls + 1, promiseStatus := .pending,
                  pendingDeferreds := s.calls :: s.pendingDeferreds }) ∧
    (isThenable r = false → s.settled = none →
       (checkCallback cb s).finished = true ∧
       (checkCallback cb s).settled = some (.res r)) ∧
    isThenable JSVal.null = false ∧
    isThenable JSVal.undef = false ∧
    isThenable (JSVal.num 3) = false ∧
    isThenable (JSVal.str "x") = false ∧
    isThenable (JSVal.bool true) = false ∧
    isThenable (JSVal.func true) = false ∧
    isThenable (JSVal.obj false) = false ∧
    isThenable (JSVal.obj true) = true := by
  refine ⟨?_, ?_, by decide, by decide, by decide, by decide, by decide,
    by decide, by decide, by decide⟩
  · intro h
    simp [checkCallback, hnp, hret, h]
  · intro h hs
    simp [checkCallback, hnp, hret, h, onDone, truthy, resolveP, hs]

/-- Witness for C10: a function carrying a then method is not treated as a
thenable and settles the poller immediately with that function value. -/
theorem checkCallback_C10_witness :
    (checkCallback (fun _ => CheckResult.ret (JSVal.func true)) {}).finished =
      true ∧
    (checkCallback (fun _ => CheckResult.ret (JSVal.func true)) {}).settled =
      some (.res (JSVal.func true)) :=
  (checkCallback_C10_thenable_dispatch (fun _ => CheckResult.ret (JSVal.func true))
    {} (JSVal.func true) (by decide) rfl).2.1 (by decide) rfl

/-- Claim C4: when the deadline fires, the terminal error is the most recent
recorded failure when that value is truthy, and otherwise a generic Error
whose message is "Timed out in waitFor."; the terminal error is passed through
onTimeout, and when the value onTimeout returns is truthy the poller rejects
with exactly that value. -/
theorem handleTimeout_C4_last_error_or_generic (cfg : Config)
    (cb : Nat → CheckResult) (s : PollerState)
    (ht : s.timeoutTimerActive = true) (hs : s.settled = none) :
    (truthy s.lastError = true → timeoutError cfg s.lastError = s.lastError) ∧
    (truthy s.lastError = false →
       ∃ stk, timeoutError cfg s.lastError =
         JSVal.err ⟨"Timed out in waitFor.", stk⟩) ∧
    (truthy (cfg.onTimeout (timeoutError cfg s.lastError)) = true →
       (step cfg cb s .deadline).settled =
         some (.rej (cfg.onTimeout (timeoutError cfg s.lastError)))) := by
  refine ⟨fun h => by simp [timeoutError, h],
          fun h => ⟨if cfg.showOriginalStackTrace then cfg.freshStack
            else copyStackTrace "Timed out in waitFor." cfg.freshStack
                   cfg.stackTraceError.message cfg.stackTraceError.stack,
            by simp [timeoutError, h]⟩,
          fun h => ?_⟩
  simp [step, ht, handleTimeout, onDone, h, rejectP, hs]

/-- Witness for C4, with the default identity onTimeout and a recorded truthy
failure: the poller rejects with that failure, not with a generic timeout
error. -/
theorem handleTimeout_C4_witness :
    (step ({} : Config) (fun _ => CheckResult.ret .undef)
        { lastError := JSVal.err ⟨"boom", none⟩ } .deadline).settled =
      some (.rej (({} : Config).onTimeout
        (timeoutError {} (JSVal.err ⟨"boom", none⟩)))) ∧
    ({} : Config).onTimeout (timeoutError {} (JSVal.err ⟨"boom", none⟩)) =
      JSVal.err ⟨"boom", none⟩ :=
  ⟨(handleTimeout_C4_last_error_or_generic {} (fun _ => CheckResult.ret .undef)
      { lastError := JSVal.err ⟨"boom", none⟩ } rfl rfl).2.2 (by decide),
   by decide⟩

/-- Claim C8: on a timeout with showOriginalStackTrace false and no recorded
failure (lastError falsy, so in particular no failure stack exists), the
generic timeout error carries the captured caller-frame stack with the
captured message replaced by the timeout message; when the captured error has
no stack the generic error keeps the stack the runtime gave it, and on a
runtime that provides no stacks at all the stack is left absent. -/
theorem timeoutError_C8_stack_relocation (cfg : Config) (lastErr : JSVal)
    (hfalsy : truthy lastErr = false)
    (hso : cfg.showOriginalStackTrace = false) :
    (∀ st, cfg.stackTraceError.stack = some st →
       timeoutError cfg lastErr =
         JSVal.err ⟨"Timed out in waitFor.",
           some (jsReplaceFirst st cfg.stackTraceError.message
                   "Timed out in waitFor.")⟩) ∧
    (cfg.stackTraceError.stack = none →
       timeoutError cfg lastErr =
         JSVal.err ⟨"Timed out in waitFor.", cfg.freshStack⟩) ∧
    (cfg.stackTraceError.stack = none → cfg.freshStack = none →
       timeoutError cfg lastErr =
         JSVal.err ⟨"Timed out in waitFor.", none⟩) := by
  refine ⟨fun st hst => ?_, fun hn => ?_, fun hn hf => ?_⟩
  · simp [timeoutError, hfalsy, hso, copyStackTrace, hst]
  · simp [timeoutError, hfalsy, hso, copyStackTrace, hn]
  · simp [timeoutError, hfalsy, hso, copyStackTrace, hn, hf]

/-- Witness for C8: with a concrete captured stack, the relocated stack is the
caller stack with STACK_TRACE_MESSAGE replaced by the timeout message. -/
theorem timeoutError_C8_witness :
    timeoutError
        { stackTraceError := ⟨"STACK_TRACE_MESSAGE",
            some "Error: STACK_TRACE_MESSAGE\n    at caller (app.js:1:1)"⟩ }
        JSVal.undef =
      JSVal.err ⟨"Timed out in waitFor.",
        some (jsReplaceFirst "Error: STACK_TRACE_MESSAGE\n    at caller (app.js:1:1)"
                "STACK_TRACE_MESSAGE" "Timed out in waitFor.")⟩ ∧
    jsReplaceFirst "Error: STACK_TRACE_MESSAGE\n    at caller (app.js:1:1)"
        "STACK_TRACE_MESSAGE" "Timed out in waitFor." =
      "Error: Timed out in waitFor.\n    at caller (app.js:1:1)" :=
  ⟨(timeoutError_C8_stack_relocation
      { stackTraceError := ⟨"STACK_TRACE_MESSAGE",
          some "Error: STACK_TRACE_MESSAGE\n    at caller (app.js:1:1)"⟩ }
      JSVal.undef rfl rfl).1 _ rfl,
   by decide⟩


/-- checkCallback actually invokes the user callback whenever no thenable is
outstanding: the call count always grows by exactly one. -/
theorem checkCallback_calls (cb : Nat → CheckResult) (s : PollerState)
    (h : s.promiseStatus ≠ .pending) :
    (checkCallback cb s).calls = s.calls + 1 := by
  simp only [checkCallback]
  split
  · exact absurd ‹s.promiseStatus = PromiseStatus.pending› h
  · split
    · split
      · simp
      · exact ((onDone_fields _ _ _).2.2.2.2.1).trans (by simp)
    · simp

/-- Claim C1 counterexample: with a cancellation token already triggered at
invocation, the poller does settle immediately as cancelled, but the user
callback is nonetheless invoked: in the source the onDone call for the aborted
signal is not followed by a return, and the unconditional synchronous
checkCallback() still runs, so the call count is 1, not 0 as the claim states.
-/
theorem waitForImpl_C1_counterexample :
    (run { hasSignal := true, preAborted := true, abortReason := "stop" }
        (fun _ => CheckResult.ret .undef) []).settled =
      some (.rej (abortError
        { hasSignal := true, preAborted := true, abortReason := "stop" })) ∧
    (run { hasSignal := true, preAborted := true, abortReason := "stop" }
        (fun _ => CheckResult.ret .undef) []).calls = 1 := by
  decide

/-- Claim C1 as amended: a pre-triggered cancellation token makes the poller
settle immediately as cancelled (rejected with the abort error, before any
event is processed), but the callback is still invoked exactly once by the
unconditional synchronous first check, and that invocation cannot change the
outward result. -/
theorem waitForImpl_C1_amended (cfg : Config) (cb : Nat → CheckResult)
    (h1 : cfg.hasSignal = true) (h2 : cfg.preAborted = true) :
    (initState cfg cb).settled = some (.rej (abortError cfg)) ∧
    (initState cfg cb).calls = 1 := by
  have hcond : (cfg.hasSignal && cfg.preAborted) = true := by simp [h1, h2]
  have e1 : initState cfg cb =
      checkCallback cb
        { (onDone (abortError cfg) JSVal.null
             ({ aborted := cfg.hasSignal && cfg.preAborted } : PollerState))
          with listenerAttached := cfg.hasSignal } := by
    simp [initState, hcond]
  rw [e1]
  constructor
  · refine settled_checkCallback_mono _ _ _ ?_
    simp [onDone, abortError, truthy, rejectP]
  · rw [checkCallback_calls]
    · have hc := (onDone_fields (abortError cfg) JSVal.null
        ({ aborted := cfg.hasSignal && cfg.preAborted } : PollerState)).2.2.2.2.1
      simp [hc]
    · have hp := (onDone_fields (abortError cfg) JSVal.null
        ({ aborted := cfg.hasSignal && cfg.preAborted } : PollerState)).2.2.2.2.2
      simp [hp]

/-- Witness for the amended C1 at a concrete pre-aborted configuration. -/
theorem waitForImpl_C1_witness :
    (initState { hasSignal := true, preAborted := true, abortReason := "stop" }
        (fun _ => CheckResult.ret .undef)).settled =
      some (.rej (abortError
        { hasSignal := true, preAborted := true, abortReason := "stop" })) ∧
    (initState { hasSignal := true, preAborted := true, abortReason := "stop" }
        (fun _ => CheckResult.ret .undef)).calls = 1 :=
  waitForImpl_C1_amended
    { hasSignal := true, preAborted := true, abortReason := "stop" }
    (fun _ => CheckResult.ret .undef) rfl rfl

/-- Claim C2: while a thenable returned by the callback is outstanding (the
status is pending), no event other than the settlement of a thenable invokes
the callback again: over any such event sequence the call count is unchanged
and the status stays pending, however many interval ticks elapse. -/
theorem waitForImpl_C2_no_reentrant_checks (cfg : Config)
    (cb : Nat → CheckResult) (s : PollerState) (events : List Event)
    (hp : s.promiseStatus = .pending)
    (hnd : ∀ e ∈ events, isDeferredEvent e = false) :
    (events.foldl (step cfg cb) s).calls = s.calls ∧
    (events.foldl (step cfg cb) s).promiseStatus = .pending := by
  induction events generalizing s with
  | nil => exact ⟨rfl, hp⟩
  | cons e es ih =>
      have hstep := pending_step cfg cb s e hp (hnd e (List.mem_cons_self e es))
      have hrec := ih (step cfg cb s e) hstep.2
        (fun x hx => hnd x (List.mem_cons_of_mem e hx))
      exact ⟨hrec.1.trans hstep.1, hrec.2⟩

/-- Witness for C2: a callback that returns a thenable is invoked exactly once
(synchronously) and three further interval ticks do not invoke it again while
the thenable is outstanding. -/
theorem waitForImpl_C2_witness :
    ([Event.tick, Event.tick, Event.tick].foldl
        (step {} (fun _ => CheckResult.ret (JSVal.obj true)))
        (initState {} (fun _ => CheckResult.ret (JSVal.obj true)))).calls =
      (initState {} (fun _ => CheckResult.ret (JSVal.obj true))).calls ∧
    ([Event.tick, Event.tick, Event.tick].foldl
        (step {} (fun _ => CheckResult.ret (JSVal.obj true)))
        (initState {} (fun _ => CheckResult.ret (JSVal.obj true)))).promiseStatus =
      PromiseStatus.pending :=
  waitForImpl_C2_no_reentrant_checks {} (fun _ => CheckResult.ret (JSVal.obj true))
    (initState {} (fun _ => CheckResult.ret (JSVal.obj true)))
    [Event.tick, Event.tick, Event.tick] (by decide) (by decide)

/-- Claim C3 counterexample: the source never detaches the abort listener at
settlement (there is no removeEventListener), so after the poller has settled
the listener is still attached and a later abort event still runs the listener
body (observable through the aborted flag), although the outward result does
not change. -/
theorem waitForImpl_C3_counterexample :
    (run { hasSignal := true } (fun _ => CheckResult.ret .undef) []).settled =
      some (.res JSVal.undef) ∧
    (run { hasSignal := true } (fun _ => CheckResult.ret .undef)
        []).listenerAttached = true ∧
    (run { hasSignal := true } (fun _ => CheckResult.ret .undef)
        [Event.abortSignal]).aborted = true ∧
    (run { hasSignal := true } (fun _ => CheckResult.ret .undef)
        [Event.abortSignal]).settled = some (.res JSVal.undef) := by
  decide

/-- Claim C3 as amended: the poller settles at most once (the first settlement
wins and no later event overwrites it); the settlement routine onDone always
marks the run finished and clears both the deadline and the interval timer;
the cancellation listener, however, is never detached: no step changes the
listenerAttached flag, and later events are merely no-ops with respect to the
outward result. -/
theorem waitForImpl_C3_amended (cfg : Config) (cb : Nat → CheckResult)
    (s : PollerState) (e : Event) (error result : JSVal) (o : Settlement) :
    ((onDone error result s).finished = true ∧
     (onDone error result s).timeoutTimerActive = false ∧
     (onDone error result s).intervalActive = false) ∧
    (s.settled = some o → (step cfg cb s e).settled = some o) ∧
    (step cfg cb s e).listenerAttached = s.listenerAttached :=
  ⟨⟨(onDone_fields error result s).1, (onDone_fields error result s).2.1,
    (onDone_fields error result s).2.2.1⟩,
   fun h => settled_step_mono cfg cb s e o h,
   listener_step_const cfg cb s e⟩

/-- Witness for the amended C3: an already-settled poller is not re-settled by
a later tick. -/
theorem waitForImpl_C3_witness :
    (step ({} : Config) (fun _ => CheckResult.ret .undef)
        { settled := some (.res JSVal.undef) } Event.tick).settled =
      some (.res JSVal.undef) :=
  (waitForImpl_C3_amended {} (fun _ => CheckResult.ret .undef)
    { settled := some (.res JSVal.undef) } Event.tick JSVal.null JSVal.null
    (.res JSVal.undef)).2.1 rfl

/-- Claim C7: a synchronous throw of the callback is recovered internally: the
thrown value is recorded in lastError, the call count grows, and nothing else
changes (no settlement, timers still running, ticking continues); likewise a
rejection of an outstanding thenable records the rejection value in lastError,
moves the status to rejected (so ticking resumes) and settles nothing. -/
theorem checkCallback_C7_local_recovery (cfg : Config)
    (cb : Nat → CheckResult) (s : PollerState) :
    (∀ e, s.promiseStatus ≠ .pending → s.intervalActive = true →
       cb s.calls = .thr e →
       step cfg cb s .tick =
         { s with calls := s.calls + 1, lastError := e }) ∧
    (∀ k e, k ∈ s.pendingDeferreds →
       step cfg cb s (.deferredReject k e) =
         { s with pendingDeferreds := s.pendingDeferreds.erase k,
                  promiseStatus := .rejected, lastError := e }) := by
  constructor
  · intro e hnp hi hthr
    simp [step, hi, checkCallback, hnp, hthr]
  · intro k e hk
    simp [step, hk]

/-- Witness for C7: a first synchronous throw is recorded and the poller keeps
running. -/
theorem checkCallback_C7_witness :
    step {} (fun _ => CheckResult.thr (JSVal.str "boom")) {} Event.tick =
      { ({} : PollerState) with calls := 1, lastError := JSVal.str "boom" } :=
  (checkCallback_C7_local_recovery {} (fun _ => CheckResult.thr (JSVal.str "boom"))
    {}).1 (JSVal.str "boom") (by decide) rfl rfl

end WaitFor
